import Mathlib

/-!
Shallow embedding of the kernel-supervision subsystem of
`src/extensions/jupyter-adapter/src/JupyterKernel.ts` (class `JupyterKernel`),
together with the enumerations it uses from
`src/src/vs/workbench/api/common/positron/extHostTypes.positron.ts`.

The asynchronous, event-driven TypeScript is modelled as explicit state
passing: each handler or method body becomes a pure Lean function on a record
holding exactly the mutable fields that body touches, and single-shot timers /
event subscriptions become booleans and counters that the corresponding
events consume.
-/

namespace JupyterAdapter

/-- RuntimeState enumeration (extHostTypes.positron.ts, lines 8-38). -/
inductive RuntimeState
  | uninitialized
  | initializing
  | starting
  | ready
  | idle
  | busy
  | exiting
  | exited
  | offline
  | interrupting
  deriving DecidableEq, Repr

/-- RuntimeCodeExecutionMode enumeration (extHostTypes.positron.ts, lines 136-145). -/
inductive RuntimeCodeExecutionMode
  | interactive
  | transient
  | silent
  deriving DecidableEq, Repr

/-- RuntimeErrorBehavior enumeration (extHostTypes.positron.ts, lines 150-156).
The Continue member is written with a trailing underscore because continue is
reserved in Lean. -/
inductive RuntimeErrorBehavior
  | stop
  | continue_
  deriving DecidableEq, Repr

/-- The five channel kinds of the JupyterSockets enumeration used throughout
JupyterKernel.ts. -/
inductive JupyterSockets
  | control
  | shell
  | stdin
  | iopub
  | heartbeat
  deriving DecidableEq, Repr

/-- JupyterMessageHeader: the header block of a protocol message. -/
structure JupyterMessageHeader where
  msg_id : String
  msg_type : String
  version : String
  date : String
  session : String
  username : String
  deriving DecidableEq, Repr

/-- JupyterMessage, polymorphic in the content payload (the TypeScript field
has type JupyterMessageSpec, an open union).  The parent header is an Option:
none models the empty-object parent header used for originating messages. -/
structure JupyterMessage (α : Type) where
  buffers : List (List Nat)
  content : α
  header : JupyterMessageHeader
  metadata : List (String × String)
  parent_header : Option JupyterMessageHeader
  deriving DecidableEq, Repr

/-- An outbound send as performed by JupyterKernel.send / sendToSocket
(JupyterKernel.ts lines 806-839): destination socket, message id and type,
parent header (none for the empty-object parent of send), and content. -/
structure OutboundMessage (α : Type) where
  msgId : String
  msgType : String
  socket : JupyterSockets
  parent : Option JupyterMessageHeader
  content : α
  deriving DecidableEq, Repr

/-- JupyterExecuteRequest content (fields as built by execute,
JupyterKernel.ts lines 644-662).  user_expressions is the constant new Map(). -/
structure JupyterExecuteRequest where
  code : String
  allow_stdin : Bool
  silent : Bool
  store_history : Bool
  user_expressions : List (String × String)
  stop_on_error : Bool
  deriving DecidableEq, Repr

/-- The execute method (JupyterKernel.ts lines 638-670): builds the
execute_request content from the mode and error behavior and sends it on the
shell socket with the caller-provided id. -/
def execute (code : String) (id : String) (mode : RuntimeCodeExecutionMode)
    (errorBehavior : RuntimeErrorBehavior) : OutboundMessage JupyterExecuteRequest :=
  { msgId := id,
    msgType := "execute_request",
    socket := JupyterSockets.shell,
    parent := none,
    content :=
      { code := code,
        allow_stdin := decide (mode ≠ RuntimeCodeExecutionMode.silent),
        silent := decide (mode = RuntimeCodeExecutionMode.silent),
        store_history := decide (mode = RuntimeCodeExecutionMode.interactive),
        user_expressions := [],
        stop_on_error := decide (errorBehavior = RuntimeErrorBehavior.stop) } }

/-- C4: execute(code, id, mode, errorBehavior) sends on the shell channel an
execute_request whose content has code equal to the given code, allow_stdin
true iff mode is not Silent, silent true iff mode is Silent, store_history
true iff mode is Interactive, and stop_on_error true iff errorBehavior is
Stop; and execute("1+1", "abc", Interactive, Stop) yields exactly the content
with code "1+1", allow_stdin true, silent false, store_history true,
stop_on_error true. -/
theorem execute_request_fields (code id : String) (mode : RuntimeCodeExecutionMode)
    (errorBehavior : RuntimeErrorBehavior) :
    (execute code id mode errorBehavior).socket = JupyterSockets.shell ∧
    (execute code id mode errorBehavior).msgType = "execute_request" ∧
    (execute code id mode errorBehavior).msgId = id ∧
    (execute code id mode errorBehavior).content.code = code ∧
    ((execute code id mode errorBehavior).content.allow_stdin = true ↔
      mode ≠ RuntimeCodeExecutionMode.silent) ∧
    ((execute code id mode errorBehavior).content.silent = true ↔
      mode = RuntimeCodeExecutionMode.silent) ∧
    ((execute code id mode errorBehavior).content.store_history = true ↔
      mode = RuntimeCodeExecutionMode.interactive) ∧
    ((execute code id mode errorBehavior).content.stop_on_error = true ↔
      errorBehavior = RuntimeErrorBehavior.stop) ∧
    (execute "1+1" "abc" RuntimeCodeExecutionMode.interactive
        RuntimeErrorBehavior.stop).content =
      { code := "1+1", allow_stdin := true, silent := false, store_history := true,
        user_expressions := [], stop_on_error := true } := by
  refine ⟨rfl, rfl, rfl, rfl, ?_, ?_, ?_, ?_, by decide⟩ <;>
    cases mode <;> cases errorBehavior <;> simp [execute]

/-! Model of the start method and its deferred-start queueing
(JupyterKernel.ts lines 327-470) together with the status-event machinery
(setStatus, lines 886-889). -/

/-- The synchronous decision made at the top of start (lines 332 and 373):
defer when Initializing, ignore (logged no-op, resolved return) when in any
other non-startable state, otherwise proceed to launch. -/
inductive StartOutcome
  | deferred
  | ignored
  | launched
  deriving DecidableEq, Repr

/-- The branch structure of start (JupyterKernel.ts lines 332, 373-377). -/
def startOutcome (status : RuntimeState) : StartOutcome :=
  if status = RuntimeState.initializing then StartOutcome.deferred
  else if status ≠ RuntimeState.uninitialized ∧ status ≠ RuntimeState.exited then
    StartOutcome.ignored
  else StartOutcome.launched

/-- What the status-event callback registered by a deferred start does when a
status event arrives (JupyterKernel.ts lines 337-365): keep waiting on
Initializing, schedule a retry via setTimeout(0) on Uninitialized, and reject
with the resulting state otherwise. -/
inductive DeferredStartAction
  | keepWaiting
  | retryStart
  | rejectAlready (st : RuntimeState)
  deriving DecidableEq, Repr

/-- The deferred-start callback body (JupyterKernel.ts lines 337-365). -/
def deferredStartAction (st : RuntimeState) : DeferredStartAction :=
  if st = RuntimeState.initializing then DeferredStartAction.keepWaiting
  else if st = RuntimeState.uninitialized then DeferredStartAction.retryStart
  else DeferredStartAction.rejectAlready st

/-- The slice of supervisor state the start path manipulates: the status, the
number of deferred-start callbacks subscribed to the status event, the number
of setTimeout(0) retries queued, the number of start bodies suspended at the
await of createJupyterSession, the number of external processes launched
(createTerminal calls), and the states carried by rejected queued starts. -/
structure StartMachine where
  status : RuntimeState
  waiters : Nat
  queued : Nat
  pendingBoot : Nat
  launches : Nat
  rejections : List RuntimeState
  deriving DecidableEq, Repr

/-- Delivery of a status event to the subscribed deferred-start callbacks
(the emit in setStatus, line 887).  Each callback unsubscribes and then either
keeps waiting, queues a setTimeout(0) retry, or records a rejection carrying
the state. -/
def processWaiters (m : StartMachine) (st : RuntimeState) : StartMachine :=
  match deferredStartAction st with
  | DeferredStartAction.keepWaiting => m
  | DeferredStartAction.retryStart =>
      { m with waiters := 0, queued := m.queued + m.waiters }
  | DeferredStartAction.rejectAlready s =>
      { m with waiters := 0, rejections := m.rejections ++ List.replicate m.waiters s }

/-- setStatus (JupyterKernel.ts lines 886-889): emits the status event to the
listeners, then records the new status. -/
def setStatus (m : StartMachine) (st : RuntimeState) : StartMachine :=
  { processWaiters m st with status := st }

/-- A call to start (JupyterKernel.ts lines 327-470), up to its first
suspension point: a deferred call subscribes a status-event callback; an
ignored call returns with no effect; a launching call sets the status to
Initializing and suspends at the await of createJupyterSession. -/
def callStart (m : StartMachine) : StartMachine :=
  match startOutcome m.status with
  | StartOutcome.deferred => { m with waiters := m.waiters + 1 }
  | StartOutcome.ignored => m
  | StartOutcome.launched =>
      { setStatus m RuntimeState.initializing with pendingBoot := m.pendingBoot + 1 }

/-- Resumption of a suspended start body (JupyterKernel.ts lines 386-437):
the session is created, the status is set to Starting, and the external
process is launched in a terminal via createTerminal. -/
def resumeStart (m : StartMachine) : StartMachine :=
  match m.pendingBoot with
  | 0 => m
  | p + 1 =>
      let m1 := setStatus { m with pendingBoot := p } RuntimeState.starting
      { m1 with launches := m1.launches + 1 }

/-- A later tick of the event loop running one queued setTimeout(0) retry
(JupyterKernel.ts lines 355-357): the deferred start calls start again. -/
def tick (m : StartMachine) : StartMachine :=
  match m.queued with
  | 0 => m
  | q + 1 => callStart { m with queued := q }

/-- C1: start() while Initializing launches no process and only subscribes a
status-event callback; a transition to Uninitialized turns the queued start
into a setTimeout(0) retry run on a later tick (which re-enters start and
launches); a transition to any other state rejects the queued start carrying
that state; and two start() calls in rapid succession from Uninitialized,
the second arriving while the first is Initializing, launch exactly one
external process, the second call being rejected when the first reaches
Starting. -/
theorem start_while_initializing_queued (m : StartMachine) (st : RuntimeState)
    (hm : m.status = RuntimeState.initializing)
    (h1 : st ≠ RuntimeState.initializing) (h2 : st ≠ RuntimeState.uninitialized) :
    callStart m = { m with waiters := m.waiters + 1 } ∧
    (callStart m).launches = m.launches ∧
    deferredStartAction RuntimeState.uninitialized = DeferredStartAction.retryStart ∧
    deferredStartAction st = DeferredStartAction.rejectAlready st ∧
    (setStatus m RuntimeState.uninitialized).queued = m.queued + m.waiters ∧
    (setStatus m RuntimeState.uninitialized).launches = m.launches ∧
    (tick (setStatus ⟨RuntimeState.initializing, 1, 0, 0, 0, []⟩
        RuntimeState.uninitialized)).pendingBoot = 1 ∧
    (resumeStart (tick (setStatus ⟨RuntimeState.initializing, 1, 0, 0, 0, []⟩
        RuntimeState.uninitialized))).launches = 1 ∧
    (resumeStart (callStart (callStart
        (⟨RuntimeState.uninitialized, 0, 0, 0, 0, []⟩ : StartMachine)))).launches = 1 ∧
    (resumeStart (callStart (callStart
        (⟨RuntimeState.uninitialized, 0, 0, 0, 0, []⟩ : StartMachine)))).rejections =
      [RuntimeState.starting] := by
  refine ⟨?_, ?_, by decide, ?_, ?_, ?_, by decide, by decide, by decide, by decide⟩
  · simp [callStart, startOutcome, hm]
  · simp [callStart, startOutcome, hm]
  · simp [deferredStartAction, h1, h2]
  · simp [setStatus, processWaiters, deferredStartAction]
  · simp [setStatus, processWaiters, deferredStartAction]

/-- Witness for C1 at a concrete machine in the Initializing state and the
resulting state Starting. -/
theorem start_while_initializing_queued_witness :
    callStart ⟨RuntimeState.initializing, 0, 0, 0, 0, []⟩ =
      { (⟨RuntimeState.initializing, 0, 0, 0, 0, []⟩ : StartMachine) with waiters := 0 + 1 } :=
  (start_while_initializing_queued ⟨RuntimeState.initializing, 0, 0, 0, 0, []⟩
    RuntimeState.starting rfl (by decide) (by decide)).1

/-- C8 counterexample: start() at Ready is not surfaced as a rejection; it is
the logged no-op branch — the machine is left entirely unchanged and no
rejection is recorded, refuting the claim that a disallowed start yields a
rejected promise carrying the state. -/
theorem start_from_ready_not_rejected :
    startOutcome RuntimeState.ready = StartOutcome.ignored ∧
    callStart ⟨RuntimeState.ready, 0, 0, 0, 0, []⟩ =
      ⟨RuntimeState.ready, 0, 0, 0, 0, []⟩ ∧
    (callStart ⟨RuntimeState.ready, 0, 0, 0, 0, []⟩).rejections = [] := by
  decide

/-- C8 amended: start() in a state that disallows starting (any state other
than Uninitialized, Exited, or Initializing) is a logged no-op: the call
returns immediately without launching a process, changing state, or recording
a rejection; only a start queued while Initializing is rejected (with the
resulting state attached) when the next transition lands on such a state. -/
theorem start_disallowed_is_noop (st : RuntimeState) (m : StartMachine)
    (h1 : st ≠ RuntimeState.uninitialized) (h2 : st ≠ RuntimeState.exited)
    (h3 : st ≠ RuntimeState.initializing) (hm : m.status = st) :
    startOutcome st = StartOutcome.ignored ∧
    callStart m = m ∧
    deferredStartAction st = DeferredStartAction.rejectAlready st := by
  have ho : startOutcome st = StartOutcome.ignored := by
    simp [startOutcome, h1, h2, h3]
  refine ⟨ho, ?_, by simp [deferredStartAction, h3, h1]⟩
  simp [callStart, hm, ho]

/-- Witness for C8's amended claim at the Ready state. -/
theorem start_disallowed_is_noop_witness :
    callStart ⟨RuntimeState.ready, 1, 2, 0, 3, []⟩ =
      ⟨RuntimeState.ready, 1, 2, 0, 3, []⟩ :=
  (start_disallowed_is_noop RuntimeState.ready ⟨RuntimeState.ready, 1, 2, 0, 3, []⟩
    (by decide) (by decide) (by decide) rfl).2.1

/-! Model of the heartbeat cycle (JupyterKernel.ts lines 844-879): the
heartbeat method sends a probe and arms the single-shot timeout timer whose
callback sets the status to Offline; onHeartbeat clears that timer, logs the
round-trip time, and arms the single-shot timer for the next probe.  Timers
are booleans: armed, and disarmed by firing or by clearTimeout. -/

/-- The slice of supervisor state the heartbeat cycle manipulates. -/
structure HeartbeatMachine where
  status : RuntimeState
  heartbeatTimer : Bool
  nextHeartbeat : Bool
  lastHeartbeat : Nat
  offlineTransitions : Nat
  logged : Nat
  deriving DecidableEq, Repr

/-- The heartbeat method (JupyterKernel.ts lines 844-854): records the send
time and arms the timeout timer. -/
def heartbeat (m : HeartbeatMachine) (now : Nat) : HeartbeatMachine :=
  { m with lastHeartbeat := now, heartbeatTimer := true }

/-- The timeout timer firing (the setTimeout callback at lines 849-853): only
an armed single-shot timer can fire; it sets the status to Offline. -/
def heartbeatTimerFired (m : HeartbeatMachine) : HeartbeatMachine :=
  if m.heartbeatTimer then
    { m with heartbeatTimer := false,
             status := RuntimeState.offline,
             offlineTransitions := m.offlineTransitions + 1 }
  else m

/-- onHeartbeat (JupyterKernel.ts lines 861-879): clears the timeout timer,
logs the round-trip time when a send time is recorded, and arms the timer for
the next probe.  It never writes the status. -/
def onHeartbeat (m : HeartbeatMachine) : HeartbeatMachine :=
  { m with heartbeatTimer := false,
           logged := m.logged + (if m.lastHeartbeat ≠ 0 then 1 else 0),
           nextHeartbeat := true }

/-- The next-heartbeat timer firing (the setTimeout callback at lines
876-878): runs the heartbeat method again. -/
def nextHeartbeatFired (m : HeartbeatMachine) (now : Nat) : HeartbeatMachine :=
  if m.nextHeartbeat then heartbeat { m with nextHeartbeat := false } now else m

/-- C2: each heartbeat send arms the timeout timer; whatever the current
state (Ready, Idle, Busy, ...), if the timer fires the status transitions to
Offline exactly once for that cycle — the fired timer is disarmed, so firing
again without a new send changes nothing; and a heartbeat reply never writes
the status, so in particular a reply that arrives while Offline is logged but
leaves the status Offline. -/
theorem heartbeat_timeout_offline_once (m : HeartbeatMachine) (now : Nat)
    (harmed : m.heartbeatTimer = true) (hsent : m.lastHeartbeat ≠ 0) :
    (heartbeat m now).heartbeatTimer = true ∧
    (heartbeatTimerFired m).status = RuntimeState.offline ∧
    (heartbeatTimerFired m).offlineTransitions = m.offlineTransitions + 1 ∧
    (heartbeatTimerFired m).heartbeatTimer = false ∧
    heartbeatTimerFired (heartbeatTimerFired m) = heartbeatTimerFired m ∧
    (onHeartbeat m).status = m.status ∧
    (onHeartbeat m).logged = m.logged + 1 ∧
    (∀ m2 : HeartbeatMachine, m2.status = RuntimeState.offline →
      (onHeartbeat m2).status = RuntimeState.offline ∧
      (m2.lastHeartbeat ≠ 0 → (onHeartbeat m2).logged = m2.logged + 1)) := by
  refine ⟨rfl, ?_, ?_, ?_, ?_, rfl, ?_, ?_⟩
  · simp [heartbeatTimerFired, harmed]
  · simp [heartbeatTimerFired, harmed]
  · simp [heartbeatTimerFired, harmed]
  · simp [heartbeatTimerFired, harmed]
  · simp [onHeartbeat, hsent]
  · intro m2 hoff
    exact ⟨hoff, fun hs2 => by simp [onHeartbeat, hs2]⟩

/-- Witness for C2 at a concrete machine in the Ready state with the timeout
timer armed: the missed cycle takes it to Offline with exactly one
transition. -/
theorem heartbeat_timeout_offline_once_witness :
    (heartbeatTimerFired
      (⟨RuntimeState.ready, true, false, 5, 0, 0⟩ : HeartbeatMachine)).offlineTransitions =
      0 + 1 :=
  (heartbeat_timeout_offline_once ⟨RuntimeState.ready, true, false, 5, 0, 0⟩ 7
    rfl (by decide)).2.2.1

/-! Model of restart and shutdown (JupyterKernel.ts lines 575-599).  The
field corresponding to the private member _process is assigned null in the
constructor (line 88) and is never assigned anywhere else in the class, so the
model carries it as an Option that the constructor sets to none and that no
operation ever sets to some. -/

/-- The slice of supervisor state that restart and shutdown touch: the
status, the _process handle, the number of exit listeners registered on it
via once, and the messages sent (socket and message type). -/
structure KernelConn where
  status : RuntimeState
  process : Option Unit
  processExitListeners : Nat
  sent : List (JupyterSockets × String)
  deriving DecidableEq, Repr

/-- The constructor's initialization of this slice (JupyterKernel.ts lines
88-101): _process is null and the status is Uninitialized. -/
def initialKernelConn : KernelConn :=
  { status := RuntimeState.uninitialized,
    process := none,
    processExitListeners := 0,
    sent := [] }

/-- The shutdown method (JupyterKernel.ts lines 593-599): sets the status to
Exiting and sends a shutdown_request on the control socket. -/
def shutdown (k : KernelConn) (_restart : Bool) : KernelConn :=
  { k with status := RuntimeState.exiting,
           sent := k.sent ++ [(JupyterSockets.control, "shutdown_request")] }

/-- The restart method (JupyterKernel.ts lines 575-588): sets the status to
Exiting, calls shutdown(true), and then — only when the _process handle is
non-null, because of the optional chaining in this._process?.once — registers
the exit listener that would call start again. -/
def restart (k : KernelConn) : KernelConn :=
  let k1 := { k with status := RuntimeState.exiting }
  let k2 := shutdown k1 true
  match k2.process with
  | some _ => { k2 with processExitListeners := k2.processExitListeners + 1 }
  | none => k2

/-- C3: restart does perform the shutdown half of the claim — it sends a
shutdown_request on the control channel and sets the status to Exiting — but
because _process is null from construction onward, the optional-chained
once('exit') registration is skipped, so no exit listener exists and start()
is never called after the process exits.  Had the process handle been
populated, the listener would have been registered. -/
theorem restart_exit_listener_never_registered :
    initialKernelConn.process = none ∧
    (restart initialKernelConn).status = RuntimeState.exiting ∧
    (restart initialKernelConn).sent = [(JupyterSockets.control, "shutdown_request")] ∧
    (restart initialKernelConn).processExitListeners = 0 ∧
    (restart { initialKernelConn with process := some () }).processExitListeners = 1 := by
  decide

/-! Model of the pending input request table (the private member
_inputRequests, a Map from message id to JupyterMessageHeader, line 55), its
population by the stdin message handler (lines 311-321), and replyToPrompt
(lines 678-700). -/

/-- Map.get on the pending input request table. -/
def mapGet (m : List (String × JupyterMessageHeader)) (k : String) :
    Option JupyterMessageHeader :=
  match m with
  | [] => none
  | (k2, v) :: rest => if k2 = k then some v else mapGet rest k

/-- Map.delete on the pending input request table. -/
def mapDelete (m : List (String × JupyterMessageHeader)) (k : String) :
    List (String × JupyterMessageHeader) :=
  m.filter (fun p => decide ¬(p.1 = k))

/-- Map.set on the pending input request table (keys are unique). -/
def mapSet (m : List (String × JupyterMessageHeader)) (k : String)
    (v : JupyterMessageHeader) : List (String × JupyterMessageHeader) :=
  (k, v) :: mapDelete m k

/-- Looking up a key after deleting it finds nothing. -/
theorem mapGet_mapDelete (m : List (String × JupyterMessageHeader)) (k : String) :
    mapGet (mapDelete m k) k = none := by
  induction m with
  | nil => rfl
  | cons p rest ih =>
      rcases p with ⟨k2, v⟩
      by_cases h : k2 = k
      · simpa [mapDelete, List.filter_cons, h] using ih
      · simpa [mapDelete, List.filter_cons, h, mapGet] using ih

/-- The stdin message handler's recording step (JupyterKernel.ts lines
314-318): an inbound message whose type is input_request has its header
stored in the table under its message id, before the message is emitted. -/
def recordInputRequest {α : Type} (table : List (String × JupyterMessageHeader))
    (msg : JupyterMessage α) : List (String × JupyterMessageHeader) :=
  if msg.header.msg_type = "input_request" then
    mapSet table msg.header.msg_id msg.header
  else table

/-- JupyterInputReply content (the body built by replyToPrompt, lines
680-682). -/
structure JupyterInputReply where
  value : String
  deriving DecidableEq, Repr

/-- The result of replyToPrompt: the message sent on the stdin socket and the
updated pending input request table. -/
structure ReplyToPromptResult where
  sent : OutboundMessage JupyterInputReply
  inputRequests : List (String × JupyterMessageHeader)
  deriving DecidableEq, Repr

/-- replyToPrompt (JupyterKernel.ts lines 678-700): when the id is found in
the table, the reply is sent with the recorded header as parent and the entry
is deleted; when it is not found, the reply is sent anyway with the
empty-object parent (modelled as none).  The newId argument models the
uuidv4() call that names the outgoing message. -/
def replyToPrompt (table : List (String × JupyterMessageHeader))
    (newId : String) (id : String) (value : String) : ReplyToPromptResult :=
  match mapGet table id with
  | some parent =>
      { sent := { msgId := newId, msgType := "input_reply",
                  socket := JupyterSockets.stdin, parent := some parent,
                  content := { value := value } },
        inputRequests := mapDelete table id }
  | none =>
      { sent := { msgId := newId, msgType := "input_reply",
                  socket := JupyterSockets.stdin, parent := none,
                  content := { value := value } },
        inputRequests := table }

/-- C5: when the id matches a recorded input_request header, replyToPrompt
sends an input_reply on stdin whose parent header is exactly the recorded
header (so the parent message id equals the original request's message id)
and deletes the entry, so a subsequent lookup of the same id finds nothing;
when the id matches nothing, the reply is still sent, with no parent header.
The recording step itself makes a later lookup of the request's message id
find its header. -/
theorem replyToPrompt_correlates_and_clears
    (table : List (String × JupyterMessageHeader)) (newId id value : String)
    (hdr : JupyterMessageHeader) (hfound : mapGet table id = some hdr) :
    (replyToPrompt table newId id value).sent.socket = JupyterSockets.stdin ∧
    (replyToPrompt table newId id value).sent.msgType = "input_reply" ∧
    (replyToPrompt table newId id value).sent.parent = some hdr ∧
    ((replyToPrompt table newId id value).sent.parent.map JupyterMessageHeader.msg_id) =
      some hdr.msg_id ∧
    (replyToPrompt table newId id value).sent.content = { value := value } ∧
    mapGet (replyToPrompt table newId id value).inputRequests id = none ∧
    (∀ table2 : List (String × JupyterMessageHeader), mapGet table2 id = none →
      (replyToPrompt table2 newId id value).sent.parent = none ∧
      (replyToPrompt table2 newId id value).sent.socket = JupyterSockets.stdin ∧
      (replyToPrompt table2 newId id value).sent.msgType = "input_reply" ∧
      (replyToPrompt table2 newId id value).inputRequests = table2) ∧
    (∀ (msg : JupyterMessage Unit) (t : List (String × JupyterMessageHeader)),
      msg.header.msg_type = "input_request" →
      mapGet (recordInputRequest t msg) msg.header.msg_id = some msg.header) := by
  refine ⟨?_, ?_, ?_, ?_, ?_, ?_, ?_, ?_⟩
  · simp [replyToPrompt, hfound]
  · simp [replyToPrompt, hfound]
  · simp [replyToPrompt, hfound]
  · simp [replyToPrompt, hfound]
  · simp [replyToPrompt, hfound]
  · simp [replyToPrompt, hfound, mapGet_mapDelete]
  · intro table2 hnone
    refine ⟨?_, ?_, ?_, ?_⟩ <;> simp [replyToPrompt, hnone]
  · intro msg t hreq
    simp [recordInputRequest, hreq, mapSet, mapGet]

/-- Witness for C5 at a concrete one-entry table. -/
theorem replyToPrompt_correlates_and_clears_witness :
    (replyToPrompt [("req-1", ⟨"req-1", "input_request", "5.0", "d", "s", "u"⟩)]
      "new-id" "req-1" "yes").sent.parent =
      some ⟨"req-1", "input_request", "5.0", "d", "s", "u"⟩ :=
  (replyToPrompt_correlates_and_clears
    [("req-1", ⟨"req-1", "input_request", "5.0", "d", "s", "u"⟩)]
    "new-id" "req-1" "yes" ⟨"req-1", "input_request", "5.0", "d", "s", "u"⟩
    (by simp [mapGet])).2.2.1

/-! Model of message emission (emitMessage, JupyterKernel.ts lines 616-628)
and the per-socket inbound handlers registered in connectToTerminal (lines
297-321), which emit exactly one packet per successfully decoded message. -/

/-- The outward event packet (JupyterMessagePacket) built by emitMessage. -/
structure JupyterMessagePacket (α : Type) where
  type : String
  message : α
  msgId : String
  msgType : String
  when : String
  originId : String
  socket : JupyterSockets
  deriving DecidableEq, Repr

/-- emitMessage (JupyterKernel.ts lines 616-628): packages a decoded message
with its channel tag; originId is the parent header's message id when the
message has a parent, and the empty string otherwise. -/
def emitMessage {α : Type} (socket : JupyterSockets) (msg : JupyterMessage α) :
    JupyterMessagePacket α :=
  { type := "jupyter-message",
    message := msg.content,
    msgId := msg.header.msg_id,
    msgType := msg.header.msg_type,
    when := msg.header.date,
    originId := match msg.parent_header with
      | some ph => ph.msg_id
      | none => "",
    socket := socket }

/-- An inbound socket handler (JupyterKernel.ts lines 299-321): the raw
frames are deserialized; a null result emits nothing, a decoded message is
emitted exactly once. -/
def onSocketMessage {α : Type} (socket : JupyterSockets)
    (decoded : Option (JupyterMessage α)) : List (JupyterMessagePacket α) :=
  match decoded with
  | some msg => [emitMessage socket msg]
  | none => []

/-- C9: every inbound message that decodes successfully is emitted as exactly
one outward event, packaged with the channel tag, the message content, the
message id, the message type, the timestamp, and an originId equal to the
parent's message id when a parent is present and the empty string otherwise. -/
theorem inbound_message_single_emit {α : Type} (socket : JupyterSockets)
    (decoded : Option (JupyterMessage α)) (msg : JupyterMessage α)
    (h : decoded = some msg) :
    (onSocketMessage socket decoded).length = 1 ∧
    (∀ p ∈ onSocketMessage socket decoded,
      p.socket = socket ∧
      p.type = "jupyter-message" ∧
      p.message = msg.content ∧
      p.msgId = msg.header.msg_id ∧
      p.msgType = msg.header.msg_type ∧
      p.when = msg.header.date ∧
      (∀ ph, msg.parent_header = some ph → p.originId = ph.msg_id) ∧
      (msg.parent_header = none → p.originId = "")) ∧
    onSocketMessage socket (none : Option (JupyterMessage α)) = [] := by
  subst h
  refine ⟨rfl, ?_, rfl⟩
  intro p hp
  simp only [onSocketMessage, List.mem_singleton] at hp
  subst hp
  refine ⟨rfl, rfl, rfl, rfl, rfl, rfl, ?_, ?_⟩
  · intro ph hph
    simp [emitMessage, hph]
  · intro hph
    simp [emitMessage, hph]

/-- Witness for C9 at a concrete reply message with a parent header. -/
theorem inbound_message_single_emit_witness :
    (onSocketMessage JupyterSockets.shell
      (some (⟨[], "payload", ⟨"m2", "execute_reply", "5.0", "d2", "s", "u"⟩, [],
        some ⟨"m1", "execute_request", "5.0", "d1", "s", "u"⟩⟩ :
        JupyterMessage String))).length = 1 :=
  (inbound_message_single_emit JupyterSockets.shell _
    (⟨[], "payload", ⟨"m2", "execute_reply", "5.0", "d2", "s", "u"⟩, [],
      some ⟨"m1", "execute_request", "5.0", "d1", "s", "u"⟩⟩ :
      JupyterMessage String) rfl).1

/-! Model of the reconnect scan (JupyterKernel.ts lines 110-189): the
constructor finds persisted session state for the runtime id and calls
reconnect, which sets Initializing, scans the open terminals for one whose
process id matches the persisted one (disposing same-named terminals with a
different process id as stale), and either connects to the match or clears
the persisted state and returns to Uninitialized. -/

/-- The exit status of a vscode terminal: code is undefined while the
underlying process is still running. -/
structure TerminalExitStatus where
  code : Option Int
  deriving DecidableEq, Repr

/-- A vscode terminal as the scan observes it: its name, the process id its
processId promise resolves to, and its exit status (none while open). -/
structure Terminal where
  name : String
  pid : Option Nat
  exitStatus : Option TerminalExitStatus
  deriving DecidableEq, Repr

/-- The terminals disposed as stale during the scan (JupyterKernel.ts lines
150-152): same display name, different process id than the persisted one. -/
def staleScan (displayName : String) (statePid : Nat) (terminals : List Terminal) :
    List Terminal :=
  terminals.filter (fun t => decide (t.name = displayName ∧ t.pid ≠ some statePid))

/-- The terminals whose process id matches the persisted one (the resolve at
line 153 followed by the filter at line 159). -/
def matchingTerminals (statePid : Nat) (terminals : List Terminal) : List Terminal :=
  terminals.filter (fun t => decide (t.pid = some statePid))

/-- The observable outcome of the reconnect scan: the statuses set in order,
whether the persisted session state was cleared from workspace storage,
the stale terminals disposed, and the terminal connected to (if any). -/
structure ReconnectResult where
  statusEvents : List RuntimeState
  persistedStateCleared : Bool
  disposedTerminals : List Terminal
  connectedTerminal : Option Terminal
  deriving DecidableEq, Repr

/-- The reconnect method (JupyterKernel.ts lines 126-189): Initializing is
set first; when no terminal's process id matches the persisted one, the
persisted state is cleared and the status returns to Uninitialized; otherwise
the first match is connected to after the status moves to Starting. -/
def reconnect (displayName : String) (statePid : Nat) (terminals : List Terminal) :
    ReconnectResult :=
  match matchingTerminals statePid terminals with
  | [] =>
      { statusEvents := [RuntimeState.initializing, RuntimeState.uninitialized],
        persistedStateCleared := true,
        disposedTerminals := staleScan displayName statePid terminals,
        connectedTerminal := none }
  | t :: _ =>
      { statusEvents := [RuntimeState.initializing, RuntimeState.starting],
        persistedStateCleared := false,
        disposedTerminals := staleScan displayName statePid terminals,
        connectedTerminal := some t }

/-- C6: when the persisted process id matches none of the open terminals, the
scan transitions through Initializing back to Uninitialized, clears the
persisted session state for the runtime id, connects to nothing, and disposes
exactly the terminals bearing the kernel's display name with a different
process id as stale. -/
theorem reconnect_no_matching_terminal (displayName : String) (statePid : Nat)
    (terminals : List Terminal)
    (h : ∀ t ∈ terminals, t.pid ≠ some statePid) :
    (reconnect displayName statePid terminals).statusEvents =
      [RuntimeState.initializing, RuntimeState.uninitialized] ∧
    (reconnect displayName statePid terminals).persistedStateCleared = true ∧
    (reconnect displayName statePid terminals).connectedTerminal = none ∧
    (∀ t ∈ terminals,
      (t ∈ (reconnect displayName statePid terminals).disposedTerminals ↔
        (t.name = displayName ∧ t.pid ≠ some statePid))) := by
  have hm : matchingTerminals statePid terminals = [] := by
    simp only [matchingTerminals, List.filter_eq_nil_iff]
    intro t ht
    simpa using h t ht
  refine ⟨?_, ?_, ?_, ?_⟩
  · rw [reconnect, hm]
  · rw [reconnect, hm]
  · rw [reconnect, hm]
  · intro t ht
    rw [reconnect, hm]
    simp only [staleScan, List.mem_filter, decide_eq_true_eq]
    exact ⟨fun hx => hx.2, fun hx => ⟨ht, hx⟩⟩

/-- Witness for C6: the spec scenario with persisted process id 4242, one
same-named terminal with a different process id, and one unrelated terminal. -/
theorem reconnect_no_matching_terminal_witness :
    (reconnect "R" 4242
      [⟨"R", some 100, none⟩, ⟨"bash", some 7, none⟩]).persistedStateCleared = true :=
  (reconnect_no_matching_terminal "R" 4242
    [⟨"R", some 100, none⟩, ⟨"bash", some 7, none⟩] (by decide)).2.1

/-! Model of the cleanup performed when the status becomes Exited
(onStatusChange, JupyterKernel.ts lines 896-924, and dispose, lines 740-784),
over the resource flags that path manipulates. -/

/-- The supervisor's resources as cleanup observes them: whether persisted
session state exists for the runtime id, whether an in-memory session is
held and whether its connection and log files have been removed, the bound
terminal and whether it was disposed, the LSP comm, the log tail watch, the
two heartbeat timers, the five sockets, and the Ready-path LSP hookup. -/
structure KernelResources where
  persistedState : Bool
  hasSession : Bool
  sessionFilesRemoved : Bool
  terminal : Option Terminal
  terminalDisposed : Bool
  lspCommId : Option String
  lspCommClosed : Bool
  logTailWatching : Bool
  heartbeatTimer : Bool
  nextHeartbeat : Bool
  control : Bool
  shell : Bool
  stdin : Bool
  iopub : Bool
  heartbeatSocket : Bool
  hasLsp : Bool
  lspStartRequested : Bool
  deriving DecidableEq, Repr

/-- Modelled from the spec: JupyterSession.dispose (JupyterSession.ts is not
among the sources).  Per the data-model section, disposing the in-memory
session descriptor removes its connection and log files. -/
def disposeSession (k : KernelResources) : KernelResources :=
  if k.hasSession then { k with sessionFilesRemoved := true } else k

/-- The terminal-closing step of the Exited branch (JupyterKernel.ts lines
907-909): dispose the terminal when it is still open (exit status
undefined). -/
def closeTerminalIfOpen (k : KernelResources) : KernelResources :=
  match k.terminal with
  | some t => if t.exitStatus = none then { k with terminalDisposed := true } else k
  | none => k

/-- disposeHeartbeatTimers (JupyterKernel.ts lines 775-784). -/
def disposeHeartbeatTimers (k : KernelResources) : KernelResources :=
  { k with heartbeatTimer := false, nextHeartbeat := false }

/-- disposeAllSockets (JupyterKernel.ts lines 761-773). -/
def disposeAllSockets (k : KernelResources) : KernelResources :=
  { k with control := false, shell := false, stdin := false,
           iopub := false, heartbeatSocket := false }

/-- The dispose method (JupyterKernel.ts lines 740-756): closes the LSP comm
if one is set up, stops the log tail, disposes the heartbeat timers, and
disposes all five sockets. -/
def dispose (k : KernelResources) : KernelResources :=
  let k1 := if k.lspCommId.isSome then { k with lspCommClosed := true } else k
  disposeAllSockets (disposeHeartbeatTimers { k1 with logTailWatching := false })

/-- onStatusChange (JupyterKernel.ts lines 896-924): on Exited, the persisted
session state is deleted, the session is disposed, the terminal is closed if
still open, and the connection state is disposed; on Ready, the LSP hookup is
requested when an LSP callback and a session exist. -/
def onStatusChange (k : KernelResources) (status : RuntimeState) : KernelResources :=
  if status = RuntimeState.exited then
    dispose (closeTerminalIfOpen (disposeSession { k with persistedState := false }))
  else if status = RuntimeState.ready then
    if k.hasLsp ∧ k.hasSession then { k with lspStartRequested := true } else k
  else k

/-- C7: on the transition to Exited, the persisted session state for the
runtime id is deleted, the in-memory session descriptor is disposed (its
connection and log files removed), the terminal is disposed when still open,
and the connection state is disposed: the log tail stops, both heartbeat
timers are cleared, and all five sockets are disposed. -/
theorem exited_cleanup (k : KernelResources) (t : Terminal)
    (hs : k.hasSession = true) (ht : k.terminal = some t)
    (hopen : t.exitStatus = none) :
    (onStatusChange k RuntimeState.exited).persistedState = false ∧
    (onStatusChange k RuntimeState.exited).sessionFilesRemoved = true ∧
    (onStatusChange k RuntimeState.exited).terminalDisposed = true ∧
    (onStatusChange k RuntimeState.exited).logTailWatching = false ∧
    (onStatusChange k RuntimeState.exited).heartbeatTimer = false ∧
    (onStatusChange k RuntimeState.exited).nextHeartbeat = false ∧
    (onStatusChange k RuntimeState.exited).control = false ∧
    (onStatusChange k RuntimeState.exited).shell = false ∧
    (onStatusChange k RuntimeState.exited).stdin = false ∧
    (onStatusChange k RuntimeState.exited).iopub = false ∧
    (onStatusChange k RuntimeState.exited).heartbeatSocket = false := by
  cases hl : k.lspCommId <;>
    refine ⟨?_, ?_, ?_, ?_, ?_, ?_, ?_, ?_, ?_, ?_, ?_⟩ <;>
    simp [onStatusChange, dispose, disposeAllSockets, disposeHeartbeatTimers,
      closeTerminalIfOpen, disposeSession, hs, ht, hopen, hl]

/-- Witness for C7 at a concrete resource record with an open terminal. -/
theorem exited_cleanup_witness :
    (onStatusChange
      (⟨true, true, false, some ⟨"R", some 42, none⟩, false, some "comm-1", false,
        true, true, true, true, true, true, true, true, false, false⟩ : KernelResources)
      RuntimeState.exited).terminalDisposed = true :=
  (exited_cleanup
    ⟨true, true, false, some ⟨"R", some 42, none⟩, false, some "comm-1", false,
      true, true, true, true, true, true, true, true, false, false⟩
    ⟨"R", some 42, none⟩ rfl rfl rfl).2.2.1

/-! Model of the terminal-close listener registered in connectToTerminal
(JupyterKernel.ts lines 243-267). -/

/-- The terminal-close handler: given the kernel's display name, the current
status, the closed terminal's name and the bound terminal's exit status, it
returns the status transition performed (none when the close is ignored or
merely logged as a startup failure). -/
def onDidCloseTerminal (displayName : String) (status : RuntimeState)
    (closedName : String) (exitStatus : Option TerminalExitStatus) :
    Option RuntimeState :=
  if closedName ≠ displayName then none
  else match exitStatus with
    | none => none
    | some es =>
      match es.code with
      | none => none
      | some _ =>
        if status = RuntimeState.starting then none
        else some RuntimeState.exited

/-- C10: a terminal close with a defined exit code while the status is
Starting performs no transition (the failure is only logged); the close
triggers the transition to Exited exactly when the status is not Starting;
and any transition the handler performs is to Exited from a non-Starting
status. -/
theorem terminal_close_transitions (displayName : String) (status : RuntimeState)
    (c : Int) (hst : status ≠ RuntimeState.starting) :
    onDidCloseTerminal displayName RuntimeState.starting displayName
      (some ⟨some c⟩) = none ∧
    onDidCloseTerminal displayName status displayName (some ⟨some c⟩) =
      some RuntimeState.exited ∧
    (∀ (st : RuntimeState) (es : Option TerminalExitStatus) (r : RuntimeState),
      onDidCloseTerminal displayName st displayName es = some r →
      r = RuntimeState.exited ∧ st ≠ RuntimeState.starting ∧
      ∃ c2 : Int, es = some ⟨some c2⟩) := by
  refine ⟨by simp [onDidCloseTerminal], by simp [onDidCloseTerminal, hst], ?_⟩
  intro st es r hr
  rcases es with _ | ⟨_ | c2⟩ <;>
    simp only [onDidCloseTerminal, ite_not, if_pos rfl] at hr
  · cases hr
  · cases hr
  · by_cases hst2 : st = RuntimeState.starting
    · simp [hst2] at hr
    · simp [hst2] at hr
      exact ⟨hr.symm, hst2, c2, rfl⟩

/-- Witness for C10 at the Ready status with exit code 1. -/
theorem terminal_close_transitions_witness :
    onDidCloseTerminal "R" RuntimeState.ready "R"
      (some ⟨some 1⟩) = some RuntimeState.exited :=
  (terminal_close_transitions "R" RuntimeState.ready 1 (by decide)).2.1

end JupyterAdapter
